import Mathlib

/-
Shallow embedding of `src/exts/pegasus_isaac/pegasus_isaac/mavlink_interface.py`
(PegasusSimulator MAVLink bridge).

Modelling conventions:
- Python floats are modelled as `ℚ` (the operations used are exact decimal
  arithmetic and comparisons), Python ints as `ℤ`, bit fields as `ℕ`.
- Python `int(x)` (truncation toward zero) is `pyInt`.
- Python dictionaries passed to `update_gps_data` are association lists
  `List (String × ℚ)`; a missing key is a `KeyError`, modelled by the
  second component of the result (`some missingKey`).
- The mavlink connection object is external; a connection handle is a `ℕ`
  allocated from a monotone counter in `World`, so that distinct
  allocations yield distinct handles.
- Busy-wait loops (`while not self._received_imu and self._is_running: pass`
  and the do-while receive loop in `poll_mavlink_messages`) are modelled
  with an explicit fuel parameter: `none` means the loop has not exited
  within `fuel` iterations.  The loop bodies do not modify any modelled
  state, exactly as in the source, so the guard value is invariant during
  the spin.
- `self._connection.mav.hil_sensor_send(...)` can raise; the outcome of the
  transmission attempt is passed in as an `Except String Unit` argument and
  the `try/except` of the source is the `match` on it (the `except` branch
  logs a warning, returned as a `Bool`).
-/

/-- Python `int()` applied to a rational: truncation toward zero. -/
def pyInt (q : ℚ) : ℤ := if q < 0 then -⌊-q⌋ else ⌊q⌋

namespace SensorSource

/-- Source: `ACCEL: int = 7  # 0b111` -/
def ACCEL : ℕ := 7

/-- Source: `GYRO: int = 56  # 0b111000` -/
def GYRO : ℕ := 56

/-- Source: `MAG: int = 448  # 0b111000000` -/
def MAG : ℕ := 448

/-- Source: `BARO: int = 6656  # 0b1101000000000` -/
def BARO : ℕ := 6656

/-- Source: `DIFF_PRESS: int = 1024  # 0b10000000000` -/
def DIFF_PRESS : ℕ := 1024

end SensorSource

/-- The sensor data that can be sent through mavlink (class `SensorMsg`). -/
structure SensorMsg where
  new_imu_data : Bool
  xacc : ℚ
  yacc : ℚ
  zacc : ℚ
  xgyro : ℚ
  ygyro : ℚ
  zgyro : ℚ
  new_bar_data : Bool
  abs_pressure : ℚ
  pressure_alt : ℚ
  temperature : ℚ
  new_mag_data : Bool
  xmag : ℚ
  ymag : ℚ
  zmag : ℚ
  new_press_data : Bool
  diff_pressure : ℚ
  new_gps_data : Bool
  fix_type : ℤ
  latitude_deg : ℤ
  longitude_deg : ℤ
  altitude : ℤ
  eph : ℤ
  epv : ℤ
  velocity : ℤ
  velocity_north : ℤ
  velocity_east : ℤ
  velocity_down : ℤ
  cog : ℤ
  satellites_visible : ℤ
  deriving DecidableEq

/-- Source: `SensorMsg.__init__`: all channels zeroed, all dirty flags `False`
(GPS position fields start at the sentinel `-999`, `eph`/`epv` at `1`). -/
def SensorMsg.init : SensorMsg where
  new_imu_data := false
  xacc := 0
  yacc := 0
  zacc := 0
  xgyro := 0
  ygyro := 0
  zgyro := 0
  new_bar_data := false
  abs_pressure := 0
  pressure_alt := 0
  temperature := 0
  new_mag_data := false
  xmag := 0
  ymag := 0
  zmag := 0
  new_press_data := false
  diff_pressure := 0
  new_gps_data := false
  fix_type := 0
  latitude_deg := -999
  longitude_deg := -999
  altitude := -999
  eph := 1
  epv := 1
  velocity := 0
  velocity_north := 0
  velocity_east := 0
  velocity_down := 0
  cog := 0
  satellites_visible := 0

/-- Argument dictionary of `update_imu_data`: keys `"linear_acceleration"`
and `"angular_velocity"`, each a 3-vector. -/
structure ImuData where
  linear_acceleration : ℚ × ℚ × ℚ
  angular_velocity : ℚ × ℚ × ℚ

/-- Argument dictionary of `update_mag_data`: key `"magnetic_field"`. -/
structure MagData where
  magnetic_field : ℚ × ℚ × ℚ

/-- Argument dictionary of `update_bar_data`. -/
structure BarData where
  temperature : ℚ
  absolute_pressure : ℚ
  pressure_altitude : ℚ

/-- Source: `MavlinkInterface.update_imu_data`: overwrite accelerometer and gyro
channels, then set `new_imu_data`. -/
def update_imu_data (s : SensorMsg) (data : ImuData) : SensorMsg :=
  { s with
    xacc := data.linear_acceleration.1
    yacc := data.linear_acceleration.2.1
    zacc := data.linear_acceleration.2.2
    xgyro := data.angular_velocity.1
    ygyro := data.angular_velocity.2.1
    zgyro := data.angular_velocity.2.2
    new_imu_data := true }

/-- Source: `MavlinkInterface.update_bar_data`: overwrite barometer channels, then
set `new_bar_data`. -/
def update_bar_data (s : SensorMsg) (data : BarData) : SensorMsg :=
  { s with
    temperature := data.temperature
    abs_pressure := data.absolute_pressure
    pressure_alt := data.pressure_altitude
    new_bar_data := true }

/-- Source: `MavlinkInterface.update_mag_data`: overwrite magnetometer channels,
then set `new_mag_data`. -/
def update_mag_data (s : SensorMsg) (data : MagData) : SensorMsg :=
  { s with
    xmag := data.magnetic_field.1
    ymag := data.magnetic_field.2.1
    zmag := data.magnetic_field.2.2
    new_mag_data := true }

/-- Modelled from the spec: the source file has no producer hook for the
differential-pressure channel, but `send_sensor_msgs` consumes a
`new_press_data` dirty flag and a `diff_pressure` value, and the spec's
Sensor Aggregator lists DIFF_PRESS as an updatable group.  Following the
pattern of the other update operations: overwrite the channel, then set
the dirty flag. -/
def update_press_data (s : SensorMsg) (diff_pressure : ℚ) : SensorMsg :=
  { s with
    diff_pressure := diff_pressure
    new_press_data := true }

/-- The payload of one `hil_sensor_send` call, in source argument order. -/
structure HilSensorFrame where
  time : ℤ
  xacc : ℚ
  yacc : ℚ
  zacc : ℚ
  xgyro : ℚ
  ygyro : ℚ
  zgyro : ℚ
  xmag : ℚ
  ymag : ℚ
  zmag : ℚ
  abs_pressure : ℚ
  diff_pressure : ℚ
  pressure_alt : ℚ
  altitude : ℤ
  fields_updated : ℕ
  deriving DecidableEq

/-- Source: `MavlinkInterface.send_sensor_msgs`: compose the `fields_updated`
bitmask from the dirty flags (clearing each flag as it is consumed), then
attempt to transmit the full payload; a transmission failure is caught and
logged as a warning.  Returns the new sensor state, the frame handed to
`hil_sensor_send`, and whether the warning was logged. -/
def send_sensor_msgs (s : SensorMsg) (now : ℤ) (sendResult : Except String Unit) :
    SensorMsg × HilSensorFrame × Bool :=
  let fields_updated : ℕ := 0
  let (fields_updated, s) :=
    if s.new_imu_data then
      (fields_updated ||| SensorSource.ACCEL ||| SensorSource.GYRO,
       { s with new_imu_data := false })
    else (fields_updated, s)
  let (fields_updated, s) :=
    if s.new_mag_data then
      (fields_updated ||| SensorSource.MAG, { s with new_mag_data := false })
    else (fields_updated, s)
  let (fields_updated, s) :=
    if s.new_bar_data then
      (fields_updated ||| SensorSource.BARO, { s with new_bar_data := false })
    else (fields_updated, s)
  let (fields_updated, s) :=
    if s.new_press_data then
      (fields_updated ||| SensorSource.DIFF_PRESS, { s with new_press_data := false })
    else (fields_updated, s)
  let frame : HilSensorFrame :=
    { time := now
      xacc := s.xacc
      yacc := s.yacc
      zacc := s.zacc
      xgyro := s.xgyro
      ygyro := s.ygyro
      zgyro := s.zgyro
      xmag := s.xmag
      ymag := s.ymag
      zmag := s.zmag
      abs_pressure := s.abs_pressure
      diff_pressure := s.diff_pressure
      pressure_alt := s.pressure_alt
      altitude := s.altitude
      fields_updated := fields_updated }
  let warning :=
    match sendResult with
    | Except.ok _ => false
    | Except.error _ => true
  (s, frame, warning)

/-- The payload of one `hil_gps_send` call, in source argument order. -/
structure HilGpsFrame where
  time : ℤ
  fix_type : ℤ
  latitude_deg : ℤ
  longitude_deg : ℤ
  altitude : ℤ
  eph : ℤ
  epv : ℤ
  velocity : ℤ
  velocity_north : ℤ
  velocity_east : ℤ
  velocity_down : ℤ
  cog : ℤ
  satellites_visible : ℤ
  deriving DecidableEq

/-- Source: `MavlinkInterface.update_gps_data`: twelve sequential dictionary reads,
each immediately assigned into the sensor state with the source's scaling
and `int()` truncation; a missing key raises `KeyError` at that read,
leaving the earlier assignments in place and the later ones (and the
`new_gps_data` flag) untouched.  Returns the state as left behind and
`some missingKey` when a `KeyError` was raised (`none` on success). -/
def update_gps_data (s : SensorMsg) (data : List (String × ℚ)) :
    SensorMsg × Option String :=
  match data.lookup "fix_type" with
  | none => (s, some "fix_type")
  | some v =>
  let s := { s with fix_type := pyInt v }
  match data.lookup "latitude" with
  | none => (s, some "latitude")
  | some v =>
  let s := { s with latitude_deg := pyInt (v * 10000000) }
  match data.lookup "longitude" with
  | none => (s, some "longitude")
  | some v =>
  let s := { s with longitude_deg := pyInt (v * 10000000) }
  match data.lookup "altitude" with
  | none => (s, some "altitude")
  | some v =>
  let s := { s with altitude := pyInt (v * 1000) }
  match data.lookup "eph" with
  | none => (s, some "eph")
  | some v =>
  let s := { s with eph := pyInt v }
  match data.lookup "epv" with
  | none => (s, some "epv")
  | some v =>
  let s := { s with epv := pyInt v }
  match data.lookup "speed" with
  | none => (s, some "speed")
  | some v =>
  let s := { s with velocity := pyInt (v * 100) }
  match data.lookup "velocity_north" with
  | none => (s, some "velocity_north")
  | some v =>
  let s := { s with velocity_north := pyInt (v * 100) }
  match data.lookup "velocity_east" with
  | none => (s, some "velocity_east")
  | some v =>
  let s := { s with velocity_east := pyInt (v * 100) }
  match data.lookup "velocity_down" with
  | none => (s, some "velocity_down")
  | some v =>
  let s := { s with velocity_down := pyInt (v * 100) }
  match data.lookup "cog" with
  | none => (s, some "cog")
  | some v =>
  let s := { s with cog := pyInt (v * 100) }
  match data.lookup "sattelites_visible" with
  | none => (s, some "sattelites_visible")
  | some v =>
  let s := { s with satellites_visible := pyInt v }
  ({ s with new_gps_data := true }, none)

/-- Source: `MavlinkInterface.send_gps_msgs`: early-return when `new_gps_data` is
unset; otherwise clear the flag and attempt to transmit the stored integer
fields, catching a transmission failure as a logged warning. -/
def send_gps_msgs (s : SensorMsg) (now : ℤ) (sendResult : Except String Unit) :
    SensorMsg × Option HilGpsFrame × Bool :=
  if !s.new_gps_data then (s, none, false)
  else
    let s := { s with new_gps_data := false }
    let frame : HilGpsFrame :=
      { time := now
        fix_type := s.fix_type
        latitude_deg := s.latitude_deg
        longitude_deg := s.longitude_deg
        altitude := s.altitude
        eph := s.eph
        epv := s.epv
        velocity := s.velocity
        velocity_north := s.velocity_north
        velocity_east := s.velocity_east
        velocity_down := s.velocity_down
        cog := s.cog
        satellites_visible := s.satellites_visible }
    let warning :=
      match sendResult with
      | Except.ok _ => false
      | Except.error _ => true
    (s, some frame, warning)

/-- The mutable state of a `MavlinkInterface` instance.  The connection is
`some handle` when live and `none` after `stop_stream` drops it.  The numpy
input arrays are modelled as lists of rationals. -/
structure MavState where
  connection_port : String
  connection : Option ℕ
  update_rate : ℚ
  is_running : Bool
  GPS_fix_type : ℤ
  GPS_satellites_visible : ℤ
  GPS_eph : ℤ
  GPS_epv : ℤ
  sensor_data : SensorMsg
  num_inputs : ℕ
  input_reference : List ℚ
  armed : Bool
  input_offset : List ℚ
  input_scaling : List ℚ
  enable_lockstep : Bool
  received_first_imu : Bool
  received_first_actuator : Bool
  received_imu : Bool
  received_actuator : Bool
  received_first_hearbeat : Bool
  last_heartbeat_sent_time : ℚ

/-- A world pairs an interface state with the allocator counter for
connection handles: `mavutil.mavlink_connection` hands out a fresh handle
each call. -/
structure World where
  counter : ℕ
  st : MavState

/-- External `mavutil.mavlink_connection(port)`: allocate a fresh handle. -/
def mavlink_connection (counter : ℕ) : ℕ × ℕ := (counter, counter + 1)

namespace MavlinkInterface

/-- Source: `MavlinkInterface.__init__(connection, num_thrusters=4, enable_lockstep=True)`. -/
def init (connection : String) (num_thrusters : ℕ) (enable_lockstep : Bool)
    (counter : ℕ) : World :=
  let (handle, counter) := mavlink_connection counter
  { counter := counter
    st :=
      { connection_port := connection
        connection := some handle
        update_rate := 250
        is_running := false
        GPS_fix_type := 3
        GPS_satellites_visible := 10
        GPS_eph := 1
        GPS_epv := 1
        sensor_data := SensorMsg.init
        num_inputs := num_thrusters
        input_reference := List.replicate num_thrusters 0
        armed := false
        input_offset := List.replicate num_thrusters 0
        input_scaling := List.replicate num_thrusters 0
        enable_lockstep := enable_lockstep
        received_first_imu := false
        received_first_actuator := false
        received_imu := false
        received_actuator := false
        received_first_hearbeat := false
        last_heartbeat_sent_time := 0 } }

/-- Source: `MavlinkInterface.re_initialize_interface`: clear `is_running`, open a
new connection on the stored port, reset the lockstep flags, the
first-heartbeat flag and the heartbeat timer. -/
def re_initialize_interface (w : World) : World :=
  let st := { w.st with is_running := false }
  let (handle, counter) := mavlink_connection w.counter
  { counter := counter
    st :=
      { st with
        connection := some handle
        received_first_imu := false
        received_first_actuator := false
        received_imu := false
        received_actuator := false
        received_first_hearbeat := false
        last_heartbeat_sent_time := 0 } }

/-- Source: `MavlinkInterface.start_stream`: no-op when already running; reopen the
interface when the connection was dropped; then raise `is_running`.  (The
two thread spawns carry no modelled state.) -/
def start_stream (w : World) : World :=
  if w.st.is_running = true then w
  else
    let w := if w.st.connection = none then re_initialize_interface w else w
    { w with st := { w.st with is_running := true } }

/-- Source: `MavlinkInterface.stop_stream`: no-op when not running; otherwise clear
`is_running`, join the update thread, close and drop the connection. -/
def stop_stream (w : World) : World :=
  if w.st.is_running = false then w
  else
    { w with st := { w.st with is_running := false, connection := none } }

/-- Source: `MavlinkInterface.update_imu(self, imu_data)`: the body is the single
statement `self._received_imu = True`. -/
def update_imu (s : MavState) (imu_data : ImuData) : MavState :=
  { s with received_imu := true }

end MavlinkInterface

namespace MavlinkInterface

/-- The spin `while not self._received_imu and self._is_running: pass` in
`mavlink_update`.  The body is `pass`, so the modelled state is invariant
across iterations; `none` means the loop has not exited within `fuel`
guard evaluations. -/
def lockstep_wait_loop (s : MavState) : ℕ → Option MavState
  | 0 => none
  | fuel + 1 =>
    if !s.received_imu && s.is_running then lockstep_wait_loop s fuel
    else some s

/-- The lockstep gate at the top of a `mavlink_update` tick:
`if self._received_first_imu:` guards the spin loop. -/
def lockstep_wait (s : MavState) (fuel : ℕ) : Option MavState :=
  if s.received_first_imu then lockstep_wait_loop s fuel
  else some s

/-- Source: `self._connection.recv_match(...)`: the received message is only
logged; the actuator-decode branch is commented out in the source, so no
modelled state changes. -/
def recv_match (s : MavState) : MavState := s

/-- The do-while receive loop of `poll_mavlink_messages`; counts the
`recv_match` calls performed, `none` when the loop has not exited within
`fuel` iterations. -/
def poll_loop (needs_to_wait_for_actuator : Bool) (s : MavState) (calls : ℕ) :
    ℕ → Option (MavState × ℕ)
  | 0 => none
  | fuel + 1 =>
    let s := recv_match s
    let calls := calls + 1
    if !needs_to_wait_for_actuator || s.received_actuator then some (s, calls)
    else poll_loop needs_to_wait_for_actuator s calls fuel

/-- Source: `MavlinkInterface.poll_mavlink_messages`: early-return (zero receive
calls) while the peer's first heartbeat has not been seen; otherwise clear
`received_actuator` and run the do-while receive loop, blocking when
lockstep is enabled and an actuator message was previously received. -/
def poll_mavlink_messages (s : MavState) (fuel : ℕ) : Option (MavState × ℕ) :=
  if s.received_first_hearbeat = false then some (s, 0)
  else
    let needs_to_wait_for_actuator := s.received_first_actuator && s.enable_lockstep
    let s := { s with received_actuator := false }
    poll_loop needs_to_wait_for_actuator s 0 fuel

/-- The heartbeat-cadence block of `mavlink_update`:
`if (time.time() - self._last_heartbeat_sent_time) > 1.0 or
self._received_first_hearbeat == False: send_heartbeat();
record the send time`.  Returns the state and whether a heartbeat frame
was sent. -/
def heartbeat_step (now : ℚ) (s : MavState) : MavState × Bool :=
  if now - s.last_heartbeat_sent_time > 1 ∨ s.received_first_hearbeat = false then
    ({ s with last_heartbeat_sent_time := now }, true)
  else (s, false)

/-- Observable effects of one `mavlink_update` tick. -/
structure TickLog where
  recv_calls : ℕ
  heartbeat_sent : Bool
  sensor_frame : HilSensorFrame
  send_warning : Bool

/-- One iteration of the `while self._is_running` loop of
`mavlink_update`: lockstep gate, clear `received_imu`, poll, heartbeat
cadence, unconditional `send_sensor_msgs` (then the `send_ground_truth`
and `handle_control` stubs, which do nothing, and the fixed sleep, which
carries no modelled state).  `none` means the tick is stuck inside one of
the two spin loops. -/
def mavlink_update_tick (s : MavState) (waitFuel pollFuel : ℕ) (now : ℚ)
    (nowInt : ℤ) (sendResult : Except String Unit) :
    Option (MavState × TickLog) :=
  match lockstep_wait s waitFuel with
  | none => none
  | some s =>
  let s := { s with received_imu := false }
  match poll_mavlink_messages s pollFuel with
  | none => none
  | some (s, recv_calls) =>
  let hb := heartbeat_step now s
  let snd := send_sensor_msgs hb.1.sensor_data nowInt sendResult
  some ({ hb.1 with sensor_data := snd.1 },
        { recv_calls := recv_calls, heartbeat_sent := hb.2,
          sensor_frame := snd.2.1, send_warning := snd.2.2 })

end MavlinkInterface

/-- One producer-side Sensor Aggregator update between two drains. -/
inductive SUpdate where
  | imu (d : ImuData)
  | mag (d : MagData)
  | bar (d : BarData)
  | press (diff_pressure : ℚ)

/-- Apply one aggregator update to the sensor state. -/
def applySUpdate (s : SensorMsg) : SUpdate → SensorMsg
  | SUpdate.imu d => update_imu_data s d
  | SUpdate.mag d => update_mag_data s d
  | SUpdate.bar d => update_bar_data s d
  | SUpdate.press q => update_press_data s q

/-- Apply a sequence of aggregator updates in order. -/
def applySUpdates (s : SensorMsg) (us : List SUpdate) : SensorMsg :=
  us.foldl applySUpdate s

/-- The group code an update touches (an IMU update touches ACCEL|GYRO). -/
def touchedCode : SUpdate → ℕ
  | SUpdate.imu _ => SensorSource.ACCEL ||| SensorSource.GYRO
  | SUpdate.mag _ => SensorSource.MAG
  | SUpdate.bar _ => SensorSource.BARO
  | SUpdate.press _ => SensorSource.DIFF_PRESS

/-- Bitwise OR of the group codes touched by a sequence of updates. -/
def touchedMask (us : List SUpdate) : ℕ :=
  us.foldl (fun m u => m ||| touchedCode u) 0

/-- Whether an update is an IMU update. -/
def SUpdate.isImu : SUpdate → Bool
  | SUpdate.imu _ => true
  | _ => false

/-- Whether an update is a magnetometer update. -/
def SUpdate.isMag : SUpdate → Bool
  | SUpdate.mag _ => true
  | _ => false

/-- Whether an update is a barometer update. -/
def SUpdate.isBar : SUpdate → Bool
  | SUpdate.bar _ => true
  | _ => false

/-- Whether an update is a differential-pressure update. -/
def SUpdate.isPress : SUpdate → Bool
  | SUpdate.press _ => true
  | _ => false

/-- The bitmask `send_sensor_msgs` composes, as a function of the four
dirty flags, in the source's accumulation order. -/
def maskOfFlags (i m b p : Bool) : ℕ :=
  (if i then (0 ||| SensorSource.ACCEL ||| SensorSource.GYRO) else 0) |||
  (if m then SensorSource.MAG else 0) |||
  (if b then SensorSource.BARO else 0) |||
  (if p then SensorSource.DIFF_PRESS else 0)

theorem send_sensor_msgs_mask (s : SensorMsg) (now : ℤ) (r : Except String Unit) :
    (send_sensor_msgs s now r).2.1.fields_updated =
      maskOfFlags s.new_imu_data s.new_mag_data s.new_bar_data s.new_press_data := by
  cases hi : s.new_imu_data <;> cases hm : s.new_mag_data <;>
    cases hb : s.new_bar_data <;> cases hp : s.new_press_data <;>
    simp [send_sensor_msgs, maskOfFlags, hi, hm, hb, hp]

theorem send_sensor_msgs_flags (s : SensorMsg) (now : ℤ) (r : Except String Unit) :
    (send_sensor_msgs s now r).1.new_imu_data = false ∧
    (send_sensor_msgs s now r).1.new_mag_data = false ∧
    (send_sensor_msgs s now r).1.new_bar_data = false ∧
    (send_sensor_msgs s now r).1.new_press_data = false := by
  cases hi : s.new_imu_data <;> cases hm : s.new_mag_data <;>
    cases hb : s.new_bar_data <;> cases hp : s.new_press_data <;>
    simp [send_sensor_msgs, hi, hm, hb, hp]

theorem applySUpdate_flags (s : SensorMsg) (u : SUpdate) :
    (applySUpdate s u).new_imu_data = (s.new_imu_data || u.isImu) ∧
    (applySUpdate s u).new_mag_data = (s.new_mag_data || u.isMag) ∧
    (applySUpdate s u).new_bar_data = (s.new_bar_data || u.isBar) ∧
    (applySUpdate s u).new_press_data = (s.new_press_data || u.isPress) := by
  cases u <;>
    simp [applySUpdate, update_imu_data, update_mag_data, update_bar_data,
      update_press_data, SUpdate.isImu, SUpdate.isMag, SUpdate.isBar, SUpdate.isPress]

theorem applySUpdates_flags (us : List SUpdate) (s : SensorMsg) :
    (applySUpdates s us).new_imu_data = (s.new_imu_data || us.any SUpdate.isImu) ∧
    (applySUpdates s us).new_mag_data = (s.new_mag_data || us.any SUpdate.isMag) ∧
    (applySUpdates s us).new_bar_data = (s.new_bar_data || us.any SUpdate.isBar) ∧
    (applySUpdates s us).new_press_data = (s.new_press_data || us.any SUpdate.isPress) := by
  induction us generalizing s with
  | nil => simp [applySUpdates]
  | cons u us ih =>
    have hu := applySUpdate_flags s u
    have h := ih (applySUpdate s u)
    simp only [applySUpdates, List.foldl_cons] at h ⊢
    simp [h, hu.1, hu.2.1, hu.2.2.1, hu.2.2.2, List.any_cons, Bool.or_assoc]

theorem maskOfFlags_or_touched (i m b p : Bool) (u : SUpdate) :
    maskOfFlags i m b p ||| touchedCode u =
      maskOfFlags (i || u.isImu) (m || u.isMag) (b || u.isBar) (p || u.isPress) := by
  cases u <;> cases i <;> cases m <;> cases b <;> cases p <;>
    simp [maskOfFlags, touchedCode, SUpdate.isImu, SUpdate.isMag, SUpdate.isBar,
      SUpdate.isPress, SensorSource.ACCEL, SensorSource.GYRO, SensorSource.MAG,
      SensorSource.BARO, SensorSource.DIFF_PRESS]

theorem foldl_touched_maskOfFlags (us : List SUpdate) (i m b p : Bool) :
    us.foldl (fun mk u => mk ||| touchedCode u) (maskOfFlags i m b p) =
      maskOfFlags (i || us.any SUpdate.isImu) (m || us.any SUpdate.isMag)
        (b || us.any SUpdate.isBar) (p || us.any SUpdate.isPress) := by
  induction us generalizing i m b p with
  | nil => simp
  | cons u us ih =>
    simp only [List.foldl_cons, List.any_cons]
    rw [maskOfFlags_or_touched, ih]
    simp [Bool.or_assoc]

theorem touchedMask_eq_maskOfFlags (us : List SUpdate) :
    touchedMask us =
      maskOfFlags (us.any SUpdate.isImu) (us.any SUpdate.isMag)
        (us.any SUpdate.isBar) (us.any SUpdate.isPress) := by
  have h0 : maskOfFlags false false false false = 0 := by decide
  have h := foldl_touched_maskOfFlags us false false false false
  rw [h0] at h
  simpa [touchedMask] using h

theorem send_sensor_msgs_state (s : SensorMsg) (now : ℤ) (r : Except String Unit) :
    (send_sensor_msgs s now r).1 =
      { s with new_imu_data := false, new_mag_data := false,
               new_bar_data := false, new_press_data := false } := by
  obtain ⟨i, a1, a2, a3, g1, g2, g3, b, p1, p2, p3, m, m1, m2, m3, pr, d1, gg,
    q1, q2, q3, q4, q5, q6, q7, q8, q9, q10, q11, q12⟩ := s
  cases i <;> cases m <;> cases b <;> cases pr <;> simp [send_sensor_msgs]

theorem send_sensor_msgs_frame (s : SensorMsg) (now : ℤ) (r : Except String Unit) :
    (send_sensor_msgs s now r).2.1 =
      { time := now, xacc := s.xacc, yacc := s.yacc, zacc := s.zacc,
        xgyro := s.xgyro, ygyro := s.ygyro, zgyro := s.zgyro,
        xmag := s.xmag, ymag := s.ymag, zmag := s.zmag,
        abs_pressure := s.abs_pressure, diff_pressure := s.diff_pressure,
        pressure_alt := s.pressure_alt, altitude := s.altitude,
        fields_updated :=
          maskOfFlags s.new_imu_data s.new_mag_data s.new_bar_data s.new_press_data } := by
  cases hi : s.new_imu_data <;> cases hm : s.new_mag_data <;>
    cases hb : s.new_bar_data <;> cases hp : s.new_press_data <;>
    simp [send_sensor_msgs, maskOfFlags, hi, hm, hb, hp]

theorem send_sensor_msgs_warning (s : SensorMsg) (now : ℤ) (r : Except String Unit) :
    (send_sensor_msgs s now r).2.2 =
      match r with
      | Except.ok _ => false
      | Except.error _ => true := by
  cases hi : s.new_imu_data <;> cases hm : s.new_mag_data <;>
    cases hb : s.new_bar_data <;> cases hp : s.new_press_data <;>
    simp [send_sensor_msgs, hi, hm, hb, hp]

/-- C1: for every sequence of Sensor Aggregator updates applied between two
consecutive drains (i.e. starting from a state whose four dirty flags are
clear), the bitmask composed by `send_sensor_msgs` equals the bitwise OR of
exactly the group codes touched since the previous drain, the group codes
are the exact integers ACCEL=0x07, GYRO=0x38, MAG=0x1C0, BARO=0x1A00,
DIFF_PRESS=0x400 (an IMU update contributing ACCEL|GYRO = 0x3F), and every
dirty flag is false immediately after the drain. -/
theorem C1_drain_bitmask_or_of_touched (s : SensorMsg)
    (h : s.new_imu_data = false ∧ s.new_mag_data = false ∧
         s.new_bar_data = false ∧ s.new_press_data = false)
    (us : List SUpdate) (now : ℤ) (r : Except String Unit) :
    (send_sensor_msgs (applySUpdates s us) now r).2.1.fields_updated = touchedMask us ∧
    (send_sensor_msgs (applySUpdates s us) now r).1.new_imu_data = false ∧
    (send_sensor_msgs (applySUpdates s us) now r).1.new_mag_data = false ∧
    (send_sensor_msgs (applySUpdates s us) now r).1.new_bar_data = false ∧
    (send_sensor_msgs (applySUpdates s us) now r).1.new_press_data = false ∧
    SensorSource.ACCEL = 0x07 ∧ SensorSource.GYRO = 0x38 ∧
    SensorSource.MAG = 0x1C0 ∧ SensorSource.BARO = 0x1A00 ∧
    SensorSource.DIFF_PRESS = 0x400 ∧
    (∀ d : ImuData, touchedCode (SUpdate.imu d) = 0x3F) := by
  obtain ⟨hi, hm, hb, hp⟩ := h
  have hfl := send_sensor_msgs_flags (applySUpdates s us) now r
  refine ⟨?_, hfl.1, hfl.2.1, hfl.2.2.1, hfl.2.2.2,
    by decide, by decide, by decide, by decide, by decide, fun _ => rfl⟩
  have hf := applySUpdates_flags us s
  rw [send_sensor_msgs_mask, hf.1, hf.2.1, hf.2.2.1, hf.2.2.2, hi, hm, hb, hp,
    touchedMask_eq_maskOfFlags]
  simp

/-- Concrete update sequence used to witness C1: an IMU update followed by
a barometer update. -/
def c1Updates : List SUpdate :=
  [SUpdate.imu ⟨(1, 2, 3), (0, 0, 0)⟩, SUpdate.bar ⟨25, 101325, 10⟩]

theorem C1_drain_bitmask_or_of_touched_witness :
    (SensorMsg.init.new_imu_data = false ∧ SensorMsg.init.new_mag_data = false ∧
     SensorMsg.init.new_bar_data = false ∧ SensorMsg.init.new_press_data = false) ∧
    (send_sensor_msgs (applySUpdates SensorMsg.init c1Updates) 0
        (Except.ok ())).2.1.fields_updated = touchedMask c1Updates ∧
    touchedMask c1Updates = 6719 :=
  ⟨⟨rfl, rfl, rfl, rfl⟩,
   (C1_drain_bitmask_or_of_touched SensorMsg.init ⟨rfl, rfl, rfl, rfl⟩ c1Updates 0
      (Except.ok ())).1,
   by decide⟩

/-- C6: a drain performed with no aggregator updates since the previous
drain produces bitmask 0, while every payload field in the sent frame
still carries the last written value; concretely, after `update_imu_data`
with accel `[1,2,3]`, a first drain yields bitmask `0x3F` with
`payload.xacc = 1`, and a second drain with no intervening update yields
bitmask `0` with `payload.xacc` still `1`. -/
theorem C6_empty_drain_zero_mask_payload_kept :
    (∀ (s : SensorMsg) (n1 n2 : ℤ) (r1 r2 : Except String Unit),
      (send_sensor_msgs (send_sensor_msgs s n1 r1).1 n2 r2).2.1.fields_updated = 0 ∧
      (send_sensor_msgs (send_sensor_msgs s n1 r1).1 n2 r2).2.1.xacc = s.xacc ∧
      (send_sensor_msgs (send_sensor_msgs s n1 r1).1 n2 r2).2.1.yacc = s.yacc ∧
      (send_sensor_msgs (send_sensor_msgs s n1 r1).1 n2 r2).2.1.zacc = s.zacc ∧
      (send_sensor_msgs (send_sensor_msgs s n1 r1).1 n2 r2).2.1.xgyro = s.xgyro ∧
      (send_sensor_msgs (send_sensor_msgs s n1 r1).1 n2 r2).2.1.ygyro = s.ygyro ∧
      (send_sensor_msgs (send_sensor_msgs s n1 r1).1 n2 r2).2.1.zgyro = s.zgyro ∧
      (send_sensor_msgs (send_sensor_msgs s n1 r1).1 n2 r2).2.1.xmag = s.xmag ∧
      (send_sensor_msgs (send_sensor_msgs s n1 r1).1 n2 r2).2.1.ymag = s.ymag ∧
      (send_sensor_msgs (send_sensor_msgs s n1 r1).1 n2 r2).2.1.zmag = s.zmag ∧
      (send_sensor_msgs (send_sensor_msgs s n1 r1).1 n2 r2).2.1.abs_pressure = s.abs_pressure ∧
      (send_sensor_msgs (send_sensor_msgs s n1 r1).1 n2 r2).2.1.diff_pressure = s.diff_pressure ∧
      (send_sensor_msgs (send_sensor_msgs s n1 r1).1 n2 r2).2.1.pressure_alt = s.pressure_alt ∧
      (send_sensor_msgs (send_sensor_msgs s n1 r1).1 n2 r2).2.1.altitude = s.altitude) ∧
    ((send_sensor_msgs (update_imu_data SensorMsg.init ⟨(1, 2, 3), (0, 0, 0)⟩) 0
        (Except.ok ())).2.1.fields_updated = 0x3F ∧
     (send_sensor_msgs (update_imu_data SensorMsg.init ⟨(1, 2, 3), (0, 0, 0)⟩) 0
        (Except.ok ())).2.1.xacc = 1 ∧
     (send_sensor_msgs (send_sensor_msgs (update_imu_data SensorMsg.init
          ⟨(1, 2, 3), (0, 0, 0)⟩) 0 (Except.ok ())).1 0
        (Except.ok ())).2.1.fields_updated = 0 ∧
     (send_sensor_msgs (send_sensor_msgs (update_imu_data SensorMsg.init
          ⟨(1, 2, 3), (0, 0, 0)⟩) 0 (Except.ok ())).1 0
        (Except.ok ())).2.1.xacc = 1) := by
  constructor
  · intro s n1 n2 r1 r2
    rw [send_sensor_msgs_state s n1 r1, send_sensor_msgs_frame]
    refine ⟨?_, rfl, rfl, rfl, rfl, rfl, rfl, rfl, rfl, rfl, rfl, rfl, rfl, rfl⟩
    simp [maskOfFlags]
  · exact ⟨rfl, rfl, rfl, rfl⟩

/-- C9: the producer hook `update_imu(imu_data)` sets only the
`received_imu` flag and leaves every other field of the interface state
unchanged; its result does not depend on its argument, and accelerometer
and gyro values enter the sensor payload only via `update_imu_data`. -/
theorem C9_update_imu_frame_effect (s : MavState) (d d' : ImuData) :
    (MavlinkInterface.update_imu s d).received_imu = true ∧
    MavlinkInterface.update_imu s d = MavlinkInterface.update_imu s d' ∧
    (MavlinkInterface.update_imu s d).connection_port = s.connection_port ∧
    (MavlinkInterface.update_imu s d).connection = s.connection ∧
    (MavlinkInterface.update_imu s d).update_rate = s.update_rate ∧
    (MavlinkInterface.update_imu s d).is_running = s.is_running ∧
    (MavlinkInterface.update_imu s d).GPS_fix_type = s.GPS_fix_type ∧
    (MavlinkInterface.update_imu s d).GPS_satellites_visible = s.GPS_satellites_visible ∧
    (MavlinkInterface.update_imu s d).GPS_eph = s.GPS_eph ∧
    (MavlinkInterface.update_imu s d).GPS_epv = s.GPS_epv ∧
    (MavlinkInterface.update_imu s d).sensor_data = s.sensor_data ∧
    (MavlinkInterface.update_imu s d).num_inputs = s.num_inputs ∧
    (MavlinkInterface.update_imu s d).input_reference = s.input_reference ∧
    (MavlinkInterface.update_imu s d).armed = s.armed ∧
    (MavlinkInterface.update_imu s d).input_offset = s.input_offset ∧
    (MavlinkInterface.update_imu s d).input_scaling = s.input_scaling ∧
    (MavlinkInterface.update_imu s d).enable_lockstep = s.enable_lockstep ∧
    (MavlinkInterface.update_imu s d).received_first_imu = s.received_first_imu ∧
    (MavlinkInterface.update_imu s d).received_first_actuator = s.received_first_actuator ∧
    (MavlinkInterface.update_imu s d).received_actuator = s.received_actuator ∧
    (MavlinkInterface.update_imu s d).received_first_hearbeat = s.received_first_hearbeat ∧
    (MavlinkInterface.update_imu s d).last_heartbeat_sent_time = s.last_heartbeat_sent_time ∧
    (∀ p : SensorMsg,
      (update_imu_data p d).xacc = d.linear_acceleration.1 ∧
      (update_imu_data p d).xgyro = d.angular_velocity.1) :=
  ⟨rfl, rfl, rfl, rfl, rfl, rfl, rfl, rfl, rfl, rfl, rfl, rfl, rfl, rfl, rfl,
   rfl, rfl, rfl, rfl, rfl, rfl, rfl, fun _ => ⟨rfl, rfl⟩⟩

theorem heartbeat_step_frame (now : ℚ) (s : MavState) :
    (MavlinkInterface.heartbeat_step now s).1.is_running = s.is_running ∧
    (MavlinkInterface.heartbeat_step now s).1.sensor_data = s.sensor_data ∧
    (MavlinkInterface.heartbeat_step now s).1.received_first_hearbeat =
      s.received_first_hearbeat := by
  rw [MavlinkInterface.heartbeat_step]
  split <;> simp

/-- Closed form of one non-stuck `mavlink_update` tick taken from a state
that has not yet seen IMU data (`received_first_imu = false`, so the
lockstep gate passes) nor a first actuator message
(`received_first_actuator = false`, so the receive loop is non-blocking
and performs exactly one receive when it runs at all).  Proved equal to
`mavlink_update_tick` below. -/
def tick_result (s : MavState) (now : ℚ) (ni : ℤ) (r : Except String Unit) :
    MavState × MavlinkInterface.TickLog :=
  let pr : MavState × ℕ :=
    if s.received_first_hearbeat = false then ({ s with received_imu := false }, 0)
    else ({ s with received_imu := false, received_actuator := false }, 1)
  let hb := MavlinkInterface.heartbeat_step now pr.1
  let snd := send_sensor_msgs hb.1.sensor_data ni r
  ({ hb.1 with sensor_data := snd.1 },
   { recv_calls := pr.2, heartbeat_sent := hb.2,
     sensor_frame := snd.2.1, send_warning := snd.2.2 })

theorem mavlink_update_tick_eq (s : MavState) (wf pf : ℕ) (now : ℚ) (ni : ℤ)
    (r : Except String Unit) (hfi : s.received_first_imu = false)
    (hfa : s.received_first_actuator = false) (hpf : 1 ≤ pf) :
    MavlinkInterface.mavlink_update_tick s wf pf now ni r =
      some (tick_result s now ni r) := by
  obtain ⟨pf', rfl⟩ : ∃ k, pf = k + 1 := ⟨pf - 1, by omega⟩
  cases hrf : s.received_first_hearbeat <;>
    simp [MavlinkInterface.mavlink_update_tick, MavlinkInterface.lockstep_wait, hfi,
      MavlinkInterface.poll_mavlink_messages, MavlinkInterface.poll_loop,
      MavlinkInterface.recv_match, hfa, hrf, tick_result]

theorem tick_result_same_state (s : MavState) (now : ℚ) (ni : ℤ) (msg : String) :
    (tick_result s now ni (Except.error msg)).1 =
      (tick_result s now ni (Except.ok ())).1 := by
  simp only [tick_result]
  rw [send_sensor_msgs_state, send_sensor_msgs_state]

theorem tick_result_warning (s : MavState) (now : ℚ) (ni : ℤ)
    (r : Except String Unit) :
    (tick_result s now ni r).2.send_warning =
      match r with
      | Except.ok _ => false
      | Except.error _ => true := by
  simp only [tick_result]
  rw [send_sensor_msgs_warning]

theorem tick_result_is_running (s : MavState) (now : ℚ) (ni : ℤ)
    (r : Except String Unit) :
    (tick_result s now ni r).1.is_running = s.is_running := by
  simp only [tick_result]
  by_cases hrf : s.received_first_hearbeat = false <;>
    simp [hrf, (heartbeat_step_frame now _).1]

theorem tick_result_sensor_flags (s : MavState) (now : ℚ) (ni : ℤ)
    (r : Except String Unit) :
    (tick_result s now ni r).1.sensor_data.new_imu_data = false ∧
    (tick_result s now ni r).1.sensor_data.new_mag_data = false ∧
    (tick_result s now ni r).1.sensor_data.new_bar_data = false ∧
    (tick_result s now ni r).1.sensor_data.new_press_data = false := by
  simp only [tick_result]
  exact send_sensor_msgs_flags _ _ _

theorem tick_result_frame_indep (s : MavState) (now : ℚ) (ni : ℤ) (msg : String) :
    (tick_result s now ni (Except.error msg)).2.sensor_frame =
      (tick_result s now ni (Except.ok ())).2.sensor_frame := by
  simp only [tick_result]
  rw [send_sensor_msgs_frame, send_sensor_msgs_frame]

/-- C7: a failure while encoding/transmitting the batched sensor frame is
caught and logged as a warning and the tick completes normally (the very
same successor state as a successful send, so the loop continues); the
dirty flags were cleared before the send was attempted, so they remain
cleared after the failure and the dropped update's mask bits are lost
(no rollback on error). -/
theorem C7_send_failure_caught_no_rollback (s : MavState) (wf pf : ℕ)
    (now : ℚ) (ni : ℤ) (msg : String)
    (hfi : s.received_first_imu = false)
    (hfa : s.received_first_actuator = false)
    (hpf : 1 ≤ pf) :
    (∀ (sd : SensorMsg) (n : ℤ),
      (send_sensor_msgs sd n (Except.error msg)).1 =
        (send_sensor_msgs sd n (Except.ok ())).1 ∧
      (send_sensor_msgs sd n (Except.error msg)).1.new_imu_data = false ∧
      (send_sensor_msgs sd n (Except.error msg)).1.new_mag_data = false ∧
      (send_sensor_msgs sd n (Except.error msg)).1.new_bar_data = false ∧
      (send_sensor_msgs sd n (Except.error msg)).1.new_press_data = false ∧
      (send_sensor_msgs sd n (Except.error msg)).2.2 = true ∧
      (send_sensor_msgs sd n (Except.ok ())).2.2 = false) ∧
    (∃ s' logE logO,
      MavlinkInterface.mavlink_update_tick s wf pf now ni (Except.error msg) =
        some (s', logE) ∧
      MavlinkInterface.mavlink_update_tick s wf pf now ni (Except.ok ()) =
        some (s', logO) ∧
      logE.send_warning = true ∧ logO.send_warning = false ∧
      logE.sensor_frame = logO.sensor_frame ∧
      s'.is_running = s.is_running ∧
      s'.sensor_data.new_imu_data = false ∧ s'.sensor_data.new_mag_data = false ∧
      s'.sensor_data.new_bar_data = false ∧ s'.sensor_data.new_press_data = false) := by
  constructor
  · intro sd n
    refine ⟨(send_sensor_msgs_state sd n _).trans (send_sensor_msgs_state sd n _).symm,
      (send_sensor_msgs_flags sd n _).1, (send_sensor_msgs_flags sd n _).2.1,
      (send_sensor_msgs_flags sd n _).2.2.1, (send_sensor_msgs_flags sd n _).2.2.2,
      ?_, ?_⟩
    · rw [send_sensor_msgs_warning]
    · rw [send_sensor_msgs_warning]
  · refine ⟨(tick_result s now ni (Except.error msg)).1,
      (tick_result s now ni (Except.error msg)).2,
      (tick_result s now ni (Except.ok ())).2,
      by rw [mavlink_update_tick_eq s wf pf now ni _ hfi hfa hpf],
      by rw [mavlink_update_tick_eq s wf pf now ni _ hfi hfa hpf,
             tick_result_same_state],
      by rw [tick_result_warning], by rw [tick_result_warning],
      tick_result_frame_indep s now ni msg,
      tick_result_is_running s now ni _,
      (tick_result_sensor_flags s now ni _).1,
      (tick_result_sensor_flags s now ni _).2.1,
      (tick_result_sensor_flags s now ni _).2.2.1,
      (tick_result_sensor_flags s now ni _).2.2.2⟩

theorem lockstep_wait_loop_blocked (s : MavState)
    (h : (!s.received_imu && s.is_running) = true) :
    ∀ fuel, MavlinkInterface.lockstep_wait_loop s fuel = none := by
  intro fuel
  induction fuel with
  | zero => rfl
  | succ n ih => rw [MavlinkInterface.lockstep_wait_loop, if_pos h, ih]

theorem lockstep_wait_loop_exits (s : MavState)
    (h : (!s.received_imu && s.is_running) = false) (fuel : ℕ) (hf : 1 ≤ fuel) :
    MavlinkInterface.lockstep_wait_loop s fuel = some s := by
  obtain ⟨k, rfl⟩ : ∃ k, fuel = k + 1 := ⟨fuel - 1, by omega⟩
  rw [MavlinkInterface.lockstep_wait_loop, if_neg]
  simp [h]

theorem lockstep_wait_spec (s : MavState) (fuel : ℕ) (hf : 1 ≤ fuel) :
    MavlinkInterface.lockstep_wait s fuel =
      if s.received_first_imu = true ∧ s.received_imu = false ∧ s.is_running = true
      then none else some s := by
  rw [MavlinkInterface.lockstep_wait]
  by_cases h1 : s.received_first_imu = true
  · rw [if_pos h1]
    by_cases h2 : (!s.received_imu && s.is_running) = true
    · rw [lockstep_wait_loop_blocked s h2 fuel, if_pos]
      simp only [Bool.and_eq_true, Bool.not_eq_true'] at h2
      exact ⟨h1, h2.1, h2.2⟩
    · rw [lockstep_wait_loop_exits s (by simpa using h2) fuel hf, if_neg]
      simp only [Bool.and_eq_true, Bool.not_eq_true'] at h2
      intro hc
      exact h2 ⟨hc.2.1, hc.2.2⟩
  · rw [if_neg h1, if_neg]
    intro hc
    exact h1 hc.1

/-- Concrete state for the C2 counterexample, lockstep disabled: running,
`received_first_imu = true`, `received_imu = false`. -/
def c2sA : MavState :=
  { (MavlinkInterface.init "udpin:localhost:14540" 4 false 0).st with
    is_running := true, received_first_imu := true }

/-- Concrete state for the C2 counterexample, lockstep enabled with
`received_first_actuator = true` but `received_first_imu = false`. -/
def c2sB : MavState :=
  { (MavlinkInterface.init "udpin:localhost:14540" 4 true 0).st with
    is_running := true, received_first_actuator := true }

/-- C2 counterexample: the claim is false on the code in both directions.
With lockstep disabled (`c2sA.enable_lockstep = false`) but
`received_first_imu = true`, the tick blocks at the wait step for every
amount of fuel although `received_imu` is false; with lockstep enabled and
`received_first_actuator = true` but `received_first_imu = false`, the
tick passes the wait step immediately although `received_imu` is false. -/
theorem C2_lockstep_gate_counterexample :
    c2sA.enable_lockstep = false ∧ c2sA.is_running = true ∧
    c2sA.received_imu = false ∧
    (∀ fuel, MavlinkInterface.lockstep_wait c2sA fuel = none) ∧
    c2sB.enable_lockstep = true ∧ c2sB.received_first_actuator = true ∧
    c2sB.received_imu = false ∧ c2sB.is_running = true ∧
    (∀ fuel, MavlinkInterface.lockstep_wait c2sB fuel = some c2sB) := by
  refine ⟨rfl, rfl, rfl, ?_, rfl, rfl, rfl, rfl, ?_⟩
  · intro fuel
    rw [MavlinkInterface.lockstep_wait, if_pos (show c2sA.received_first_imu = true from rfl)]
    exact lockstep_wait_loop_blocked c2sA rfl fuel
  · intro fuel
    rw [MavlinkInterface.lockstep_wait, if_neg]
    simp [c2sB, MavlinkInterface.init]

/-- C2 amended: the lockstep gate blocks the tick (for any fuel at least 1,
`lockstep_wait` keeps spinning) exactly when `received_first_imu` is true,
`received_imu` is false and the running flag is set — it does not consult
the lockstep-enable flag or `received_first_actuator`; when it does not
block it passes the state through unchanged. -/
theorem C2_lockstep_gate_amended (s : MavState) (fuel : ℕ) (hf : 1 ≤ fuel) :
    (MavlinkInterface.lockstep_wait s fuel = none ↔
      (s.received_first_imu = true ∧ s.received_imu = false ∧ s.is_running = true)) ∧
    (MavlinkInterface.lockstep_wait s fuel = none ∨
      MavlinkInterface.lockstep_wait s fuel = some s) ∧
    (∀ (b b' : Bool),
      MavlinkInterface.lockstep_wait
        { s with enable_lockstep := b, received_first_actuator := b' } fuel = none ↔
      MavlinkInterface.lockstep_wait s fuel = none) := by
  have hs := lockstep_wait_spec s fuel hf
  refine ⟨?_, ?_, ?_⟩
  · rw [hs]
    split <;> rename_i h <;> simp [h]
  · rw [hs]
    split <;> simp
  · intro b b'
    have hs' := lockstep_wait_spec
      { s with enable_lockstep := b, received_first_actuator := b' } fuel hf
    rw [hs, hs']
    split <;> simp

theorem C2_lockstep_gate_amended_witness :
    (1 : ℕ) ≤ 1 ∧
    ((MavlinkInterface.lockstep_wait c2sB 1 = none ↔
      (c2sB.received_first_imu = true ∧ c2sB.received_imu = false ∧
       c2sB.is_running = true)) ∧
     (MavlinkInterface.lockstep_wait c2sB 1 = none ∨
      MavlinkInterface.lockstep_wait c2sB 1 = some c2sB) ∧
    (∀ (b b' : Bool),
      MavlinkInterface.lockstep_wait
        { c2sB with enable_lockstep := b, received_first_actuator := b' } 1 = none ↔
      MavlinkInterface.lockstep_wait c2sB 1 = none)) :=
  ⟨le_refl 1, C2_lockstep_gate_amended c2sB 1 (le_refl 1)⟩

/-- A freshly constructed interface state with default parameters. -/
def witState : MavState :=
  (MavlinkInterface.init "udpin:localhost:14540" 4 true 0).st

/-- C3 counterexample: starting from a fresh state at tick time 100 a
heartbeat is sent (so one has been sent and its time recorded); at the next
tick, 1/250 s later, the peer's first heartbeat still has not been
received, and the code sends a heartbeat again even though far less than
1.0 second has elapsed since the recorded send — refuting "a heartbeat is
sent only if more than 1.0 s elapsed since the last send or none was sent
yet". -/
theorem C3_heartbeat_cadence_counterexample :
    (MavlinkInterface.heartbeat_step 100 witState).2 = true ∧
    (MavlinkInterface.heartbeat_step (100 + 1/250)
        (MavlinkInterface.heartbeat_step 100 witState).1).2 = true ∧
    ¬((100 + 1/250 : ℚ) -
        (MavlinkInterface.heartbeat_step 100 witState).1.last_heartbeat_sent_time
        > 1) := by
  have h1 : MavlinkInterface.heartbeat_step 100 witState =
      ({ witState with last_heartbeat_sent_time := 100 }, true) := by
    rw [MavlinkInterface.heartbeat_step, if_pos]
    exact Or.inr rfl
  refine ⟨by rw [h1], ?_, ?_⟩
  · rw [h1, MavlinkInterface.heartbeat_step, if_pos]
    exact Or.inr rfl
  · rw [h1]
    norm_num

/-- C3 amended: in every tick, a heartbeat frame is sent and the send time
recorded if and only if more than 1.0 second has elapsed since the last
recorded heartbeat send time, OR the peer's first heartbeat has not yet
been received (`received_first_hearbeat == False`) — the source's second
disjunct tests the peer's heartbeat flag, not whether we have sent one. -/
theorem C3_heartbeat_cadence_amended (now : ℚ) (s : MavState) :
    ((MavlinkInterface.heartbeat_step now s).2 = true ↔
      (now - s.last_heartbeat_sent_time > 1 ∨ s.received_first_hearbeat = false)) ∧
    (MavlinkInterface.heartbeat_step now s).1.last_heartbeat_sent_time =
      (if (MavlinkInterface.heartbeat_step now s).2 = true then now
       else s.last_heartbeat_sent_time) ∧
    ((MavlinkInterface.heartbeat_step now s).2 = false →
      (MavlinkInterface.heartbeat_step now s).1 = s) := by
  rw [MavlinkInterface.heartbeat_step]
  split <;> rename_i h <;> simp [h]

theorem tick_result_rf_false (s : MavState) (now : ℚ) (ni : ℤ)
    (r : Except String Unit) (hrf : s.received_first_hearbeat = false) :
    tick_result s now ni r =
      ({ s with received_imu := false, last_heartbeat_sent_time := now,
                sensor_data := (send_sensor_msgs s.sensor_data ni r).1 },
       { recv_calls := 0, heartbeat_sent := true,
         sensor_frame := (send_sensor_msgs s.sensor_data ni r).2.1,
         send_warning := (send_sensor_msgs s.sensor_data ni r).2.2 }) := by
  simp only [tick_result, hrf]
  simp [MavlinkInterface.heartbeat_step, hrf]

theorem C7_send_failure_caught_no_rollback_witness :
    witState.received_first_imu = false ∧
    witState.received_first_actuator = false ∧ (1 : ℕ) ≤ 1 ∧
    ((∀ (sd : SensorMsg) (n : ℤ),
      (send_sensor_msgs sd n (Except.error "fail")).1 =
        (send_sensor_msgs sd n (Except.ok ())).1 ∧
      (send_sensor_msgs sd n (Except.error "fail")).1.new_imu_data = false ∧
      (send_sensor_msgs sd n (Except.error "fail")).1.new_mag_data = false ∧
      (send_sensor_msgs sd n (Except.error "fail")).1.new_bar_data = false ∧
      (send_sensor_msgs sd n (Except.error "fail")).1.new_press_data = false ∧
      (send_sensor_msgs sd n (Except.error "fail")).2.2 = true ∧
      (send_sensor_msgs sd n (Except.ok ())).2.2 = false) ∧
    (∃ s' logE logO,
      MavlinkInterface.mavlink_update_tick witState 1 1 0 0 (Except.error "fail") =
        some (s', logE) ∧
      MavlinkInterface.mavlink_update_tick witState 1 1 0 0 (Except.ok ()) =
        some (s', logO) ∧
      logE.send_warning = true ∧ logO.send_warning = false ∧
      logE.sensor_frame = logO.sensor_frame ∧
      s'.is_running = witState.is_running ∧
      s'.sensor_data.new_imu_data = false ∧ s'.sensor_data.new_mag_data = false ∧
      s'.sensor_data.new_bar_data = false ∧ s'.sensor_data.new_press_data = false)) :=
  ⟨rfl, rfl, le_refl 1,
   C7_send_failure_caught_no_rollback witState 1 1 0 0 "fail" rfl rfl (le_refl 1)⟩

/-- Concrete running state whose peer has not yet sent its first heartbeat,
used for C4. -/
def c4s : MavState := { witState with is_running := true }

/-- C4 counterexample: in a tick where the first-heartbeat flag is false the
tick is claimed to perform no sends at all, yet the code's tick sends a
heartbeat frame (the cadence condition is satisfied by the very flag being
false) and hands the batched sensor frame to the transmitter. -/
theorem C4_no_first_heartbeat_counterexample :
    c4s.received_first_hearbeat = false ∧
    MavlinkInterface.mavlink_update_tick c4s 1 1 100 100 (Except.ok ()) =
      some (tick_result c4s 100 100 (Except.ok ())) ∧
    (tick_result c4s 100 100 (Except.ok ())).2.heartbeat_sent = true ∧
    (tick_result c4s 100 100 (Except.ok ())).2.sensor_frame.time = 100 := by
  refine ⟨rfl, mavlink_update_tick_eq c4s 1 1 100 100 _ rfl rfl (le_refl 1), ?_, ?_⟩
  · rw [tick_result_rf_false c4s 100 100 _ rfl]
  · rw [tick_result_rf_false c4s 100 100 _ rfl, send_sensor_msgs_frame]

/-- C4 amended: in a scheduler tick in which the first-heartbeat flag is
false (and the lockstep gate passes), the tick performs no receive calls —
polling is what is skipped — but it still sends a heartbeat frame and
still hands the batched sensor frame (carrying the current payload) to the
transmitter before sleeping. -/
theorem C4_no_first_heartbeat_skips_polling_not_sends (s : MavState)
    (wf pf : ℕ) (now : ℚ) (ni : ℤ) (r : Except String Unit)
    (hrf : s.received_first_hearbeat = false)
    (hfi : s.received_first_imu = false)
    (hfa : s.received_first_actuator = false)
    (hpf : 1 ≤ pf) :
    ∃ s' log,
      MavlinkInterface.mavlink_update_tick s wf pf now ni r = some (s', log) ∧
      log.recv_calls = 0 ∧
      log.heartbeat_sent = true ∧
      log.sensor_frame = (send_sensor_msgs s.sensor_data ni r).2.1 ∧
      s'.sensor_data = (send_sensor_msgs s.sensor_data ni r).1 ∧
      s'.last_heartbeat_sent_time = now := by
  refine ⟨(tick_result s now ni r).1, (tick_result s now ni r).2,
    mavlink_update_tick_eq s wf pf now ni r hfi hfa hpf, ?_, ?_, ?_, ?_, ?_⟩ <;>
    rw [tick_result_rf_false s now ni r hrf]

theorem C4_no_first_heartbeat_skips_polling_not_sends_witness :
    c4s.received_first_hearbeat = false ∧ c4s.received_first_imu = false ∧
    c4s.received_first_actuator = false ∧ (1 : ℕ) ≤ 1 ∧
    (∃ s' log,
      MavlinkInterface.mavlink_update_tick c4s 1 1 100 100 (Except.error "fail") =
        some (s', log) ∧
      log.recv_calls = 0 ∧
      log.heartbeat_sent = true ∧
      log.sensor_frame = (send_sensor_msgs c4s.sensor_data 100 (Except.error "fail")).2.1 ∧
      s'.sensor_data = (send_sensor_msgs c4s.sensor_data 100 (Except.error "fail")).1 ∧
      s'.last_heartbeat_sent_time = 100) :=
  ⟨rfl, rfl, rfl, le_refl 1,
   C4_no_first_heartbeat_skips_polling_not_sends c4s 1 1 100 100 (Except.error "fail")
     rfl rfl rfl (le_refl 1)⟩

/-- C5: from a streaming state holding a live connection handle,
`stop_stream()` followed by `start_stream()` restores a fresh interface:
all four lockstep flags are false, the first-heartbeat flag is false, the
interface is running again, and a new connection handle — distinct from
the one closed by stop — has been opened on the same endpoint string.
(The hypothesis `h < w.counter` is the allocator invariant: every handle
held was allocated by a past `mavlink_connection` call, which returned a
value below the current counter.) -/
theorem C5_stop_start_restores_fresh_state (w : World) (h : ℕ)
    (hrun : w.st.is_running = true) (hconn : w.st.connection = some h)
    (hctr : h < w.counter) :
    (MavlinkInterface.start_stream (MavlinkInterface.stop_stream w)).st.received_first_imu = false ∧
    (MavlinkInterface.start_stream (MavlinkInterface.stop_stream w)).st.received_first_actuator = false ∧
    (MavlinkInterface.start_stream (MavlinkInterface.stop_stream w)).st.received_imu = false ∧
    (MavlinkInterface.start_stream (MavlinkInterface.stop_stream w)).st.received_actuator = false ∧
    (MavlinkInterface.start_stream (MavlinkInterface.stop_stream w)).st.received_first_hearbeat = false ∧
    (MavlinkInterface.start_stream (MavlinkInterface.stop_stream w)).st.is_running = true ∧
    (MavlinkInterface.start_stream (MavlinkInterface.stop_stream w)).st.connection_port = w.st.connection_port ∧
    (∃ h', (MavlinkInterface.start_stream (MavlinkInterface.stop_stream w)).st.connection = some h' ∧ h' ≠ h) := by
  have hstop : MavlinkInterface.stop_stream w =
      { w with st := { w.st with is_running := false, connection := none } } := by
    rw [MavlinkInterface.stop_stream, if_neg]
    simp [hrun]
  rw [hstop]
  simp only [MavlinkInterface.start_stream, MavlinkInterface.re_initialize_interface,
    mavlink_connection]
  refine ⟨by simp, by simp, by simp, by simp, by simp, by simp, by simp, w.counter, by simp, ?_⟩
  omega

/-- Interface world after `__init__` and a successful `start_stream`, used
to witness C5. -/
def c5w : World :=
  MavlinkInterface.start_stream (MavlinkInterface.init "udpin:localhost:14540" 4 true 0)

theorem C5_stop_start_restores_fresh_state_witness :
    c5w.st.is_running = true ∧ c5w.st.connection = some 0 ∧ 0 < c5w.counter ∧
    ((MavlinkInterface.start_stream (MavlinkInterface.stop_stream c5w)).st.received_first_imu = false ∧
     (MavlinkInterface.start_stream (MavlinkInterface.stop_stream c5w)).st.received_first_actuator = false ∧
     (MavlinkInterface.start_stream (MavlinkInterface.stop_stream c5w)).st.received_imu = false ∧
     (MavlinkInterface.start_stream (MavlinkInterface.stop_stream c5w)).st.received_actuator = false ∧
     (MavlinkInterface.start_stream (MavlinkInterface.stop_stream c5w)).st.received_first_hearbeat = false ∧
     (MavlinkInterface.start_stream (MavlinkInterface.stop_stream c5w)).st.is_running = true ∧
     (MavlinkInterface.start_stream (MavlinkInterface.stop_stream c5w)).st.connection_port = c5w.st.connection_port ∧
     (∃ h', (MavlinkInterface.start_stream (MavlinkInterface.stop_stream c5w)).st.connection = some h' ∧ h' ≠ 0)) :=
  ⟨rfl, rfl, by decide,
   C5_stop_start_restores_fresh_state c5w 0 rfl rfl (by decide)⟩

/-- Concrete GPS producer dictionary for C8: latitude 47.1234567,
longitude -47.12345679, altitude 1.2349 m, speed 3.999 m/s,
velocity_north -1.999, velocity_east 2.5, velocity_down 1/3, cog -0.019,
all keys present (including the misspelled `"sattelites_visible"` the
source reads). -/
def gpsDict : List (String × ℚ) :=
  [("fix_type", 3),
   ("latitude", 471234567/10000000),
   ("longitude", -4712345679/100000000),
   ("altitude", 12349/10000),
   ("eph", 1),
   ("epv", 1),
   ("speed", 3999/1000),
   ("velocity_north", -1999/1000),
   ("velocity_east", 25/10),
   ("velocity_down", 1/3),
   ("cog", -19/1000),
   ("sattelites_visible", 10)]

/-- C8: `update_gps_data` converts latitude/longitude by multiplying by
1e7, altitude by 1e3, velocities and course by 1e2, truncating toward zero
(not rounding, not flooring): latitude 47.1234567 stores 471234567;
longitude -47.12345679 stores -471234567 (toward zero, where flooring
would give -471234568); altitude 1.2349 stores 1234 (truncation, where
rounding would give 1235); and the subsequent GPS drain transmits the
stored integer latitude 471234567. -/
theorem C8_gps_scaling_truncation :
    (update_gps_data SensorMsg.init gpsDict).2 = none ∧
    (update_gps_data SensorMsg.init gpsDict).1.fix_type = 3 ∧
    (update_gps_data SensorMsg.init gpsDict).1.latitude_deg = 471234567 ∧
    (update_gps_data SensorMsg.init gpsDict).1.longitude_deg = -471234567 ∧
    (update_gps_data SensorMsg.init gpsDict).1.altitude = 1234 ∧
    (update_gps_data SensorMsg.init gpsDict).1.eph = 1 ∧
    (update_gps_data SensorMsg.init gpsDict).1.epv = 1 ∧
    (update_gps_data SensorMsg.init gpsDict).1.velocity = 399 ∧
    (update_gps_data SensorMsg.init gpsDict).1.velocity_north = -199 ∧
    (update_gps_data SensorMsg.init gpsDict).1.velocity_east = 250 ∧
    (update_gps_data SensorMsg.init gpsDict).1.velocity_down = 33 ∧
    (update_gps_data SensorMsg.init gpsDict).1.cog = -1 ∧
    (update_gps_data SensorMsg.init gpsDict).1.satellites_visible = 10 ∧
    (update_gps_data SensorMsg.init gpsDict).1.new_gps_data = true ∧
    (∃ fr, (send_gps_msgs (update_gps_data SensorMsg.init gpsDict).1 0
        (Except.ok ())).2.1 = some fr ∧ fr.latitude_deg = 471234567) := by
  have hfix : pyInt (3 : ℚ) = 3 := by norm_num [pyInt]
  have hlat : pyInt ((471234567 : ℚ)/10000000 * 10000000) = 471234567 := by
    norm_num [pyInt]
  have hlon : pyInt ((-4712345679 : ℚ)/100000000 * 10000000) = -471234567 := by
    rw [pyInt, if_pos (by norm_num)]
    norm_num [Int.floor_eq_iff]
  have halt : pyInt ((12349 : ℚ)/10000 * 1000) = 1234 := by
    rw [pyInt, if_neg (by norm_num)]
    norm_num [Int.floor_eq_iff]
  have heph : pyInt (1 : ℚ) = 1 := by norm_num [pyInt]
  have hspd : pyInt ((3999 : ℚ)/1000 * 100) = 399 := by
    rw [pyInt, if_neg (by norm_num)]
    norm_num [Int.floor_eq_iff]
  have hvn : pyInt ((-1999 : ℚ)/1000 * 100) = -199 := by
    rw [pyInt, if_pos (by norm_num)]
    norm_num [Int.floor_eq_iff]
  have hve : pyInt ((25 : ℚ)/10 * 100) = 250 := by norm_num [pyInt]
  have hvd : pyInt ((1 : ℚ)/3 * 100) = 33 := by
    rw [pyInt, if_neg (by norm_num)]
    norm_num [Int.floor_eq_iff]
  have hcog : pyInt ((-19 : ℚ)/1000 * 100) = -1 := by
    rw [pyInt, if_pos (by norm_num)]
    norm_num [Int.floor_eq_iff]
  have hsat : pyInt (10 : ℚ) = 10 := by norm_num [pyInt]
  have e : update_gps_data SensorMsg.init gpsDict =
      ({ SensorMsg.init with
          fix_type := pyInt 3,
          latitude_deg := pyInt ((471234567 : ℚ)/10000000 * 10000000),
          longitude_deg := pyInt ((-4712345679 : ℚ)/100000000 * 10000000),
          altitude := pyInt ((12349 : ℚ)/10000 * 1000),
          eph := pyInt 1,
          epv := pyInt 1,
          velocity := pyInt ((3999 : ℚ)/1000 * 100),
          velocity_north := pyInt ((-1999 : ℚ)/1000 * 100),
          velocity_east := pyInt ((25 : ℚ)/10 * 100),
          velocity_down := pyInt ((1 : ℚ)/3 * 100),
          cog := pyInt ((-19 : ℚ)/1000 * 100),
          satellites_visible := pyInt 10,
          new_gps_data := true }, none) := rfl
  rw [e]
  refine ⟨rfl, hfix, hlat, hlon, halt, heph, heph, hspd, hvn, hve, hvd, hcog,
    hsat, rfl, ?_⟩
  exact ⟨_, rfl, hlat⟩

/-- C10: for every producer dictionary that carries the eleven keys the
source reads first but lacks the exact key `"sattelites_visible"` (e.g. one
carrying the correct spelling `"satellites_visible"` instead),
`update_gps_data` raises a missing-key error at the final read, after
having already overwritten the fix-type, latitude, longitude, altitude,
error-estimate, velocity and course fields, and without setting the GPS
dirty flag: the update is not atomic on error. -/
theorem C10_gps_update_not_atomic_on_error (s : SensorMsg)
    (data : List (String × ℚ)) (v1 v2 v3 v4 v5 v6 v7 v8 v9 v10 v11 : ℚ)
    (h1 : data.lookup "fix_type" = some v1)
    (h2 : data.lookup "latitude" = some v2)
    (h3 : data.lookup "longitude" = some v3)
    (h4 : data.lookup "altitude" = some v4)
    (h5 : data.lookup "eph" = some v5)
    (h6 : data.lookup "epv" = some v6)
    (h7 : data.lookup "speed" = some v7)
    (h8 : data.lookup "velocity_north" = some v8)
    (h9 : data.lookup "velocity_east" = some v9)
    (h10 : data.lookup "velocity_down" = some v10)
    (h11 : data.lookup "cog" = some v11)
    (h12 : data.lookup "sattelites_visible" = none) :
    (update_gps_data s data).2 = some "sattelites_visible" ∧
    (update_gps_data s data).1.fix_type = pyInt v1 ∧
    (update_gps_data s data).1.latitude_deg = pyInt (v2 * 10000000) ∧
    (update_gps_data s data).1.longitude_deg = pyInt (v3 * 10000000) ∧
    (update_gps_data s data).1.altitude = pyInt (v4 * 1000) ∧
    (update_gps_data s data).1.eph = pyInt v5 ∧
    (update_gps_data s data).1.epv = pyInt v6 ∧
    (update_gps_data s data).1.velocity = pyInt (v7 * 100) ∧
    (update_gps_data s data).1.velocity_north = pyInt (v8 * 100) ∧
    (update_gps_data s data).1.velocity_east = pyInt (v9 * 100) ∧
    (update_gps_data s data).1.velocity_down = pyInt (v10 * 100) ∧
    (update_gps_data s data).1.cog = pyInt (v11 * 100) ∧
    (update_gps_data s data).1.new_gps_data = s.new_gps_data ∧
    (update_gps_data s data).1.satellites_visible = s.satellites_visible := by
  simp only [update_gps_data, h1, h2, h3, h4, h5, h6, h7, h8, h9, h10, h11, h12]
  simp

/-- Concrete dictionary for the C10 witness: all producer keys present
with the CORRECT spelling `"satellites_visible"`, which the source never
reads. -/
def c10Dict : List (String × ℚ) :=
  [("fix_type", 3), ("latitude", 47), ("longitude", 8), ("altitude", 100),
   ("eph", 1), ("epv", 1), ("speed", 2), ("velocity_north", 1),
   ("velocity_east", 1), ("velocity_down", 0), ("cog", 90),
   ("satellites_visible", 10)]

theorem C10_gps_update_not_atomic_on_error_witness :
    c10Dict.lookup "fix_type" = some 3 ∧
    c10Dict.lookup "satellites_visible" = some 10 ∧
    c10Dict.lookup "sattelites_visible" = none ∧
    ((update_gps_data SensorMsg.init c10Dict).2 = some "sattelites_visible" ∧
     (update_gps_data SensorMsg.init c10Dict).1.fix_type = pyInt 3 ∧
     (update_gps_data SensorMsg.init c10Dict).1.latitude_deg = pyInt (47 * 10000000) ∧
     (update_gps_data SensorMsg.init c10Dict).1.longitude_deg = pyInt (8 * 10000000) ∧
     (update_gps_data SensorMsg.init c10Dict).1.altitude = pyInt (100 * 1000) ∧
     (update_gps_data SensorMsg.init c10Dict).1.eph = pyInt 1 ∧
     (update_gps_data SensorMsg.init c10Dict).1.epv = pyInt 1 ∧
     (update_gps_data SensorMsg.init c10Dict).1.velocity = pyInt (2 * 100) ∧
     (update_gps_data SensorMsg.init c10Dict).1.velocity_north = pyInt (1 * 100) ∧
     (update_gps_data SensorMsg.init c10Dict).1.velocity_east = pyInt (1 * 100) ∧
     (update_gps_data SensorMsg.init c10Dict).1.velocity_down = pyInt (0 * 100) ∧
     (update_gps_data SensorMsg.init c10Dict).1.cog = pyInt (90 * 100) ∧
     (update_gps_data SensorMsg.init c10Dict).1.new_gps_data = SensorMsg.init.new_gps_data ∧
     (update_gps_data SensorMsg.init c10Dict).1.satellites_visible = SensorMsg.init.satellites_visible) :=
  ⟨rfl, rfl, rfl,
   C10_gps_update_not_atomic_on_error SensorMsg.init c10Dict 3 47 8 100 1 1 2 1 1 0 90
     rfl rfl rfl rfl rfl rfl rfl rfl rfl rfl rfl rfl⟩
